import Mathlib

/-!
# usd-render: orchestration of `render_c.c`

`render_c.c` is a straight-line `main` that drives three external libraries
(the windowing toolkit, the scene-description library and the imaging engine)
and registers one nested function, `showScreen`, as display and idle callback.

The program is embedded as a function from the behaviour of the external
libraries (`Collaborators`) to the ordered list of library calls it performs
(`Call`), each call recorded with its arguments and with the values the library
handed back.  A library answer may depend on everything that happened before,
so every library function receives the list of earlier calls.
-/

namespace UsdRender

/-! ## Values exchanged with the libraries -/

/-- Pointer-valued handles (`usd_StageRefPtr_t*`, `usd_Prim_t*`, `sdf_Path_t*`,
`usdGeom_Camera_t*`, `gf_Camera_t*`, `gf_Frustum_t*`, `usdImaging_GLEngine_t*`).
The program never dereferences them, it only passes them on; `0` may be read
as the null pointer. -/
abbrev Ptr := Nat

/-- Value of type `usd_TimeCode_t`, written by `usd_TimeCode_Default` and never
inspected by the program: identified by its bit pattern. -/
structure usd_TimeCode_t where
  bits : Nat
deriving DecidableEq

/-- Value of type `gf_Matrix4d_t`, written by the frustum functions and never
inspected by the program: identified by its bit pattern. -/
structure gf_Matrix4d_t where
  bits : Nat
deriving DecidableEq

/-- Value of type `gf_Vec4d_t`.  The only values the program stores in it are
the literal `0.0` and `int` results of `glutGet`, whose conversion to `double`
is exact, so the four components are kept as integers. -/
structure gf_Vec4d_t where
  x : Int
  y : Int
  z : Int
  w : Int
deriving DecidableEq

/-- Display-mode constant handed to `glutInitDisplayMode`. -/
inductive DisplayMode where
  | GLUT_RGBA
deriving DecidableEq

/-- Buffer bits that `showScreen` combines with `|` for `glClear`. -/
inductive BufferBit where
  | GL_COLOR_BUFFER_BIT
  | GL_DEPTH_BUFFER_BIT
deriving DecidableEq

/-- State selectors handed to `glutGet`. -/
inductive GlutState where
  | GLUT_WINDOW_WIDTH
  | GLUT_WINDOW_HEIGHT
deriving DecidableEq

/-- Function pointers the program hands to the windowing toolkit.  The only
function whose address is taken is the nested `showScreen`, which refers to the
variables `engine` and `prim` of the enclosing `main`; `main` does not assign
them again once they are set, so the pointer carries their values. -/
inductive FnPtr where
  | showScreen (engine : Ptr) (prim : Ptr)
deriving DecidableEq

/-- Names of the library operations the program uses. -/
inductive Op where
  | glutInit
  | glutInitDisplayMode
  | glutInitWindowSize
  | glutInitWindowPosition
  | glutCreateWindow
  | usd_Stage_Open
  | printf
  | usd_StageRefPtr_GetPseudoRoot
  | sdf_Path_from_string
  | usd_StageRefPtr_GetPrimAtPath
  | usdGeom_Camera_new
  | usd_TimeCode_Default
  | usdGeom_Camera_GetCamera
  | gf_Camera_GetFrustum
  | gf_Frustum_ComputeProjectionMatrix
  | gf_Frustum_ComputeViewMatrix
  | usdImaging_GLEngine_new
  | usdImaging_GLEngine_SetCameraState
  | glClearColor
  | glutDisplayFunc
  | glutIdleFunc
  | glutMainLoop
  | glClear
  | glutGet
  | usdImaging_GLEngine_SetRenderViewport
  | usdImaging_render
  | glutSwapBuffers
deriving DecidableEq

/-- One library call as it happened: the arguments passed by the program,
followed (where the library hands something back that the program keeps) by
the value handed back.  `argv[1]` is `none` when the vector has no element 1.
The colour components of `glClearColor` are given in tenths. -/
inductive Call where
  | glutInit (argc : Int) (argv : List String) (argcOut : Int) (argvOut : List String)
  | glutInitDisplayMode (mode : DisplayMode)
  | glutInitWindowSize (width : Int) (height : Int)
  | glutInitWindowPosition (x : Int) (y : Int)
  | glutCreateWindow (title : String) (window : Int)
  | usd_Stage_Open (filename : Option String) (flags : Int) (stage : Ptr) (result : Int)
  | printf (output : String)
  | usd_StageRefPtr_GetPseudoRoot (stage : Ptr) (prim : Ptr)
  | sdf_Path_from_string (s : String) (path : Ptr)
  | usd_StageRefPtr_GetPrimAtPath (stage : Ptr) (path : Ptr) (prim : Ptr)
  | usdGeom_Camera_new (prim : Ptr) (camera : Ptr)
  | usd_TimeCode_Default (time : usd_TimeCode_t)
  | usdGeom_Camera_GetCamera (camera : Ptr) (time : usd_TimeCode_t) (gf_camera : Ptr)
  | gf_Camera_GetFrustum (gf_camera : Ptr) (frustum : Ptr)
  | gf_Frustum_ComputeProjectionMatrix (frustum : Ptr) (proj : gf_Matrix4d_t)
  | gf_Frustum_ComputeViewMatrix (frustum : Ptr) (view : gf_Matrix4d_t)
  | usdImaging_GLEngine_new (engine : Ptr)
  | usdImaging_GLEngine_SetCameraState (engine : Ptr) (view : gf_Matrix4d_t)
      (proj : gf_Matrix4d_t)
  | glClearColor (r : Nat) (g : Nat) (b : Nat) (a : Nat)
  | glutDisplayFunc (fn : FnPtr)
  | glutIdleFunc (fn : FnPtr)
  | glutMainLoop
  | glClear (mask : List BufferBit)
  | glutGet (state : GlutState) (value : Int)
  | usdImaging_GLEngine_SetRenderViewport (engine : Ptr) (viewport : gf_Vec4d_t)
  | usdImaging_render (engine : Ptr) (prim : Ptr)
  | glutSwapBuffers
deriving DecidableEq

/-- Operation a call belongs to. -/
def Call.op : Call → Op
  | .glutInit _ _ _ _ => .glutInit
  | .glutInitDisplayMode _ => .glutInitDisplayMode
  | .glutInitWindowSize _ _ => .glutInitWindowSize
  | .glutInitWindowPosition _ _ => .glutInitWindowPosition
  | .glutCreateWindow _ _ => .glutCreateWindow
  | .usd_Stage_Open _ _ _ _ => .usd_Stage_Open
  | .printf _ => .printf
  | .usd_StageRefPtr_GetPseudoRoot _ _ => .usd_StageRefPtr_GetPseudoRoot
  | .sdf_Path_from_string _ _ => .sdf_Path_from_string
  | .usd_StageRefPtr_GetPrimAtPath _ _ _ => .usd_StageRefPtr_GetPrimAtPath
  | .usdGeom_Camera_new _ _ => .usdGeom_Camera_new
  | .usd_TimeCode_Default _ => .usd_TimeCode_Default
  | .usdGeom_Camera_GetCamera _ _ _ => .usdGeom_Camera_GetCamera
  | .gf_Camera_GetFrustum _ _ => .gf_Camera_GetFrustum
  | .gf_Frustum_ComputeProjectionMatrix _ _ => .gf_Frustum_ComputeProjectionMatrix
  | .gf_Frustum_ComputeViewMatrix _ _ => .gf_Frustum_ComputeViewMatrix
  | .usdImaging_GLEngine_new _ => .usdImaging_GLEngine_new
  | .usdImaging_GLEngine_SetCameraState _ _ _ => .usdImaging_GLEngine_SetCameraState
  | .glClearColor _ _ _ _ => .glClearColor
  | .glutDisplayFunc _ => .glutDisplayFunc
  | .glutIdleFunc _ => .glutIdleFunc
  | .glutMainLoop => .glutMainLoop
  | .glClear _ => .glClear
  | .glutGet _ _ => .glutGet
  | .usdImaging_GLEngine_SetRenderViewport _ _ => .usdImaging_GLEngine_SetRenderViewport
  | .usdImaging_render _ _ => .usdImaging_render
  | .glutSwapBuffers => .glutSwapBuffers

/-- Behaviour of the external libraries: what each function hands back, given
the calls made so far and its arguments.  Only the functions whose result the
program keeps appear, and the status codes it discards are left out;
`glutInit` receives `argc` by reference and `argv`, and hands back both as it
leaves them. -/
structure Collaborators where
  glutInit : List Call → Int → List String → Int × List String
  glutCreateWindow : List Call → String → Int
  usd_Stage_Open : List Call → Option String → Int → Int × Ptr
  usd_StageRefPtr_GetPseudoRoot : List Call → Ptr → Ptr
  sdf_Path_from_string : List Call → String → Ptr
  usd_StageRefPtr_GetPrimAtPath : List Call → Ptr → Ptr → Ptr
  usdGeom_Camera_new : List Call → Ptr → Ptr
  usd_TimeCode_Default : List Call → usd_TimeCode_t
  usdGeom_Camera_GetCamera : List Call → Ptr → usd_TimeCode_t → Ptr
  gf_Camera_GetFrustum : List Call → Ptr → Ptr
  gf_Frustum_ComputeProjectionMatrix : List Call → Ptr → gf_Matrix4d_t
  gf_Frustum_ComputeViewMatrix : List Call → Ptr → gf_Matrix4d_t
  usdImaging_GLEngine_new : List Call → Ptr
  glutGet : List Call → GlutState → Int

/-! ## The program -/

/-- Result of running `main` until it returns or hands control to the event
loop: the calls made, the exit status if `main` returned, and the callbacks
registered with the windowing toolkit. -/
structure Run where
  trace : List Call
  exit : Option Int
  displayFunc : Option FnPtr
  idleFunc : Option FnPtr
deriving DecidableEq

/-- Nested function `showScreen` (lines 53-64): one invocation, started after
the calls `hist`, with `engine` and `prim` taken from the enclosing `main`. -/
def showScreen (env : Collaborators) (engine prim : Ptr) (hist : List Call) : List Call :=
  let c1 := Call.glClear [BufferBit.GL_COLOR_BUFFER_BIT, BufferBit.GL_DEPTH_BUFFER_BIT]
  let width := env.glutGet (hist ++ [c1]) GlutState.GLUT_WINDOW_WIDTH
  let c2 := Call.glutGet GlutState.GLUT_WINDOW_WIDTH width
  let height := env.glutGet (hist ++ [c1, c2]) GlutState.GLUT_WINDOW_HEIGHT
  let c3 := Call.glutGet GlutState.GLUT_WINDOW_HEIGHT height
  let viewport : gf_Vec4d_t := { x := 0, y := 0, z := width, w := height }
  [c1, c2, c3,
   Call.usdImaging_GLEngine_SetRenderViewport engine viewport,
   Call.usdImaging_render engine prim,
   Call.glutSwapBuffers]

/-- Lines 6-10 of `main`: the windowing bootstrap.  Hands back the calls made
together with `argc` and `argv` as `glutInit` left them. -/
def bootstrap (env : Collaborators) (argc : Int) (argv : List String) :
    List Call × Int × List String :=
  let a := env.glutInit [] argc argv
  let c1 := Call.glutInit argc argv a.1 a.2
  let c2 := Call.glutInitDisplayMode DisplayMode.GLUT_RGBA
  let c3 := Call.glutInitWindowSize 500 500
  let c4 := Call.glutInitWindowPosition 0 0
  let window := env.glutCreateWindow [c1, c2, c3, c4] "GLLLL"
  let c5 := Call.glutCreateWindow "GLLLL" window
  ([c1, c2, c3, c4, c5], a.1, a.2)

/-- Lines 16-70 of `main`: everything after the argument check, started after
the calls `hist` with the argument vector `argv` as it then stands. -/
def setup (env : Collaborators) (hist : List Call) (argv : List String) : Run :=
  let filename := argv.get? 1
  let o := env.usd_Stage_Open hist filename 0
  let result := o.1
  let stage := o.2
  let c1 := Call.usd_Stage_Open filename 0 stage result
  let c2 := Call.printf (toString result ++ "\n")
  let prim := env.usd_StageRefPtr_GetPseudoRoot (hist ++ [c1, c2]) stage
  let c3 := Call.usd_StageRefPtr_GetPseudoRoot stage prim
  let path := env.sdf_Path_from_string (hist ++ [c1, c2, c3]) "/camera1"
  let c4 := Call.sdf_Path_from_string "/camera1" path
  let camera_prim := env.usd_StageRefPtr_GetPrimAtPath (hist ++ [c1, c2, c3, c4]) stage path
  let c5 := Call.usd_StageRefPtr_GetPrimAtPath stage path camera_prim
  let camera := env.usdGeom_Camera_new (hist ++ [c1, c2, c3, c4, c5]) camera_prim
  let c6 := Call.usdGeom_Camera_new camera_prim camera
  let time := env.usd_TimeCode_Default (hist ++ [c1, c2, c3, c4, c5, c6])
  let c7 := Call.usd_TimeCode_Default time
  let gf_camera := env.usdGeom_Camera_GetCamera (hist ++ [c1, c2, c3, c4, c5, c6, c7]) camera time
  let c8 := Call.usdGeom_Camera_GetCamera camera time gf_camera
  let frustum := env.gf_Camera_GetFrustum (hist ++ [c1, c2, c3, c4, c5, c6, c7, c8]) gf_camera
  let c9 := Call.gf_Camera_GetFrustum gf_camera frustum
  let proj := env.gf_Frustum_ComputeProjectionMatrix
    (hist ++ [c1, c2, c3, c4, c5, c6, c7, c8, c9]) frustum
  let c10 := Call.gf_Frustum_ComputeProjectionMatrix frustum proj
  let view := env.gf_Frustum_ComputeViewMatrix
    (hist ++ [c1, c2, c3, c4, c5, c6, c7, c8, c9, c10]) frustum
  let c11 := Call.gf_Frustum_ComputeViewMatrix frustum view
  let engine := env.usdImaging_GLEngine_new
    (hist ++ [c1, c2, c3, c4, c5, c6, c7, c8, c9, c10, c11])
  let c12 := Call.usdImaging_GLEngine_new engine
  let c13 := Call.usdImaging_GLEngine_SetCameraState engine view proj
  let c14 := Call.glClearColor 1 2 3 10
  let c15 := Call.glutDisplayFunc (FnPtr.showScreen engine prim)
  let c16 := Call.glutIdleFunc (FnPtr.showScreen engine prim)
  let c17 := Call.glutMainLoop
  { trace := hist ++ [c1, c2, c3, c4, c5, c6, c7, c8, c9, c10, c11, c12, c13, c14, c15, c16, c17]
    exit := none
    displayFunc := some (FnPtr.showScreen engine prim)
    idleFunc := some (FnPtr.showScreen engine prim) }

/-- Function `main` (lines 5-73) up to the point where it returns or has
entered `glutMainLoop`; `exit = none` means that control is inside the event
loop. -/
def main (env : Collaborators) (argc : Int) (argv : List String) : Run :=
  let b := bootstrap env argc argv
  if b.2.1 ≠ 2 then
    { trace := b.1, exit := some 1, displayFunc := none, idleFunc := none }
  else
    setup env b.1 b.2.2

/-! ## The event loop -/

/-- Events for which the windowing toolkit calls back into the program. -/
inductive Tick where
  | display
  | idle
deriving DecidableEq

/-- Callback the toolkit holds for an event. -/
def Run.callback (r : Run) : Tick → Option FnPtr
  | .display => r.displayFunc
  | .idle => r.idleFunc

/-- Calling a function pointer after the calls `hist`. -/
def FnPtr.invoke (env : Collaborators) : FnPtr → List Call → List Call
  | .showScreen engine prim, hist => UsdRender.showScreen env engine prim hist

/-- Event loop of the windowing toolkit over the events `ticks`: each event
calls the callback registered for it.  Hands back the calls of every callback
invocation, one list per event. -/
def glutMainLoop (env : Collaborators) (r : Run) : List Call → List Tick → List (List Call)
  | _, [] => []
  | hist, t :: ts =>
    let frame := match r.callback t with
      | some f => f.invoke env hist
      | none => []
    frame :: glutMainLoop env r (hist ++ frame) ts

/-- Callback invocations of a whole run: none when `main` returned, otherwise
those of the event loop for the events `ticks`. -/
def invocations (env : Collaborators) (argc : Int) (argv : List String)
    (ticks : List Tick) : List (List Call) :=
  match (main env argc argv).exit with
  | some _ => []
  | none => glutMainLoop env (main env argc argv) (main env argc argv).trace ticks

/-- Every library call of a run, in order: those of `main` followed by those
of the callback invocations. -/
def programTrace (env : Collaborators) (argc : Int) (argv : List String)
    (ticks : List Tick) : List Call :=
  (main env argc argv).trace ++ (invocations env argc argv ticks).flatten

/-- Text written to standard output by the calls of a trace, one entry per
`printf`. -/
def stdout (t : List Call) : List String :=
  t.filterMap (fun c => match c with
    | Call.printf s => some s
    | _ => none)

/-- Calls of a trace that belong to the operation `o`. -/
def callsOf (o : Op) (t : List Call) : List Call :=
  t.filter (fun c => decide (c.op = o))

/-- Operations `main` performs after the argument check. -/
def setupOps : List Op :=
  [Op.usd_Stage_Open, Op.printf, Op.usd_StageRefPtr_GetPseudoRoot, Op.sdf_Path_from_string,
   Op.usd_StageRefPtr_GetPrimAtPath, Op.usdGeom_Camera_new, Op.usd_TimeCode_Default,
   Op.usdGeom_Camera_GetCamera, Op.gf_Camera_GetFrustum,
   Op.gf_Frustum_ComputeProjectionMatrix, Op.gf_Frustum_ComputeViewMatrix,
   Op.usdImaging_GLEngine_new, Op.usdImaging_GLEngine_SetCameraState, Op.glClearColor,
   Op.glutDisplayFunc, Op.glutIdleFunc, Op.glutMainLoop]

/-- Operations one invocation of `showScreen` performs, in order. -/
def frameOps : List Op :=
  [Op.glClear, Op.glutGet, Op.glutGet, Op.usdImaging_GLEngine_SetRenderViewport,
   Op.usdImaging_render, Op.glutSwapBuffers]

/-- Answers to the window-size queries of a trace, in order, each with the
state that was asked for. -/
def sizeQueries (t : List Call) : List (GlutState × Int) :=
  t.filterMap (fun c => match c with
    | Call.glutGet state value => some (state, value)
    | _ => none)

/-- Viewport rectangles handed to the engine by the calls of a trace, in order. -/
def viewports (t : List Call) : List gf_Vec4d_t :=
  t.filterMap (fun c => match c with
    | Call.usdImaging_GLEngine_SetRenderViewport _ viewport => some viewport
    | _ => none)

/-- Operations that evaluate time, camera, frustum or matrices. -/
def cameraOps : List Op :=
  [Op.usd_TimeCode_Default, Op.usdGeom_Camera_GetCamera, Op.gf_Camera_GetFrustum,
   Op.gf_Frustum_ComputeProjectionMatrix, Op.gf_Frustum_ComputeViewMatrix]

/-- Argument count as `glutInit` leaves it: the value `main` tests. -/
def argcAfterInit (env : Collaborators) (argc : Int) (argv : List String) : Int :=
  (bootstrap env argc argv).2.1

/-- Argument vector as `glutInit` leaves it: the vector `main` reads the file
name from. -/
def argvAfterInit (env : Collaborators) (argc : Int) (argv : List String) : List String :=
  (bootstrap env argc argv).2.2

/-- Calls of one invocation of `showScreen` for the handles `engine` and `prim`
when the two size queries hand back `w` and `h`. -/
def frameCalls (engine prim : Ptr) (w h : Int) : List Call :=
  [Call.glClear [BufferBit.GL_COLOR_BUFFER_BIT, BufferBit.GL_DEPTH_BUFFER_BIT],
   Call.glutGet GlutState.GLUT_WINDOW_WIDTH w,
   Call.glutGet GlutState.GLUT_WINDOW_HEIGHT h,
   Call.usdImaging_GLEngine_SetRenderViewport engine { x := 0, y := 0, z := w, w := h },
   Call.usdImaging_render engine prim,
   Call.glutSwapBuffers]

/-- Operations of the windowing bootstrap, in order. -/
def bootstrapOps : List Op :=
  [Op.glutInit, Op.glutInitDisplayMode, Op.glutInitWindowSize, Op.glutInitWindowPosition,
   Op.glutCreateWindow]

/-- The handles of a trace are passed on unchanged: the stage of the single
scene open is the one asked for its pseudo-root and queried with the single
path built, the node found is the one wrapped as a camera, the wrapper is the
one evaluated at the single time code built, the camera description handed back
is the one asked for its frustum, and that frustum is the one both matrices are
computed from. -/
def HandlesPassedOn (t : List Call) : Prop :=
  ∃ (filename : Option String) (stage : Ptr) (s : Int) (prim path node camera : Ptr)
    (time : usd_TimeCode_t) (gf_camera frustum : Ptr) (proj view : gf_Matrix4d_t),
    callsOf Op.usd_Stage_Open t = [Call.usd_Stage_Open filename 0 stage s] ∧
    callsOf Op.usd_StageRefPtr_GetPseudoRoot t =
      [Call.usd_StageRefPtr_GetPseudoRoot stage prim] ∧
    callsOf Op.sdf_Path_from_string t = [Call.sdf_Path_from_string "/camera1" path] ∧
    callsOf Op.usd_StageRefPtr_GetPrimAtPath t =
      [Call.usd_StageRefPtr_GetPrimAtPath stage path node] ∧
    callsOf Op.usdGeom_Camera_new t = [Call.usdGeom_Camera_new node camera] ∧
    callsOf Op.usd_TimeCode_Default t = [Call.usd_TimeCode_Default time] ∧
    callsOf Op.usdGeom_Camera_GetCamera t =
      [Call.usdGeom_Camera_GetCamera camera time gf_camera] ∧
    callsOf Op.gf_Camera_GetFrustum t = [Call.gf_Camera_GetFrustum gf_camera frustum] ∧
    callsOf Op.gf_Frustum_ComputeProjectionMatrix t =
      [Call.gf_Frustum_ComputeProjectionMatrix frustum proj] ∧
    callsOf Op.gf_Frustum_ComputeViewMatrix t =
      [Call.gf_Frustum_ComputeViewMatrix frustum view]

/-! ## Sample library behaviours -/

/-- Libraries that leave the arguments alone, report load status `st`, answer
every size query with `500` and hand out fixed handles, the null handle for
the node at the camera path. -/
def plainEnv (st : Int) : Collaborators where
  glutInit := fun _ argc argv => (argc, argv)
  glutCreateWindow := fun _ _ => 1
  usd_Stage_Open := fun _ _ _ => (st, 11)
  usd_StageRefPtr_GetPseudoRoot := fun _ _ => 12
  sdf_Path_from_string := fun _ _ => 13
  usd_StageRefPtr_GetPrimAtPath := fun _ _ _ => 0
  usdGeom_Camera_new := fun _ _ => 15
  usd_TimeCode_Default := fun _ => ⟨16⟩
  usdGeom_Camera_GetCamera := fun _ _ _ => 17
  gf_Camera_GetFrustum := fun _ _ => 18
  gf_Frustum_ComputeProjectionMatrix := fun _ _ => ⟨19⟩
  gf_Frustum_ComputeViewMatrix := fun _ _ => ⟨20⟩
  usdImaging_GLEngine_new := fun _ => 21
  glutGet := fun _ _ => 500

/-- Like `plainEnv`, but `glutInit` removes the toolkit option `-iconic` from
the argument vector and lowers the count accordingly, as the windowing
toolkit does for the options it understands. -/
def consumingEnv (st : Int) : Collaborators :=
  { plainEnv st with
    glutInit := fun _ _ argv =>
      (((argv.filter (fun a => a != "-iconic")).length : Nat),
        argv.filter (fun a => a != "-iconic")) }

/-- Libraries whose scene open fails with status `-1` and which hand out the
null handle everywhere, also for the node at the camera path and for the camera
wrapper. -/
def failingEnv : Collaborators where
  glutInit := fun _ argc argv => (argc, argv)
  glutCreateWindow := fun _ _ => 1
  usd_Stage_Open := fun _ _ _ => (-1, 0)
  usd_StageRefPtr_GetPseudoRoot := fun _ _ => 0
  sdf_Path_from_string := fun _ _ => 0
  usd_StageRefPtr_GetPrimAtPath := fun _ _ _ => 0
  usdGeom_Camera_new := fun _ _ => 0
  usd_TimeCode_Default := fun _ => ⟨0⟩
  usdGeom_Camera_GetCamera := fun _ _ _ => 0
  gf_Camera_GetFrustum := fun _ _ => 0
  gf_Frustum_ComputeProjectionMatrix := fun _ _ => ⟨0⟩
  gf_Frustum_ComputeViewMatrix := fun _ _ => ⟨0⟩
  usdImaging_GLEngine_new := fun _ => 0
  glutGet := fun _ _ => 0

/-- Like `plainEnv 0`, but the window is 800 by 600 during the first callback
invocation and 400 by 300 afterwards.  The size depends on how many buffer
swaps happened before the query. -/
def resizingEnv : Collaborators :=
  { plainEnv 0 with
    glutGet := fun hist s =>
      match (callsOf Op.glutSwapBuffers hist).length, s with
      | 0, GlutState.GLUT_WINDOW_WIDTH => 800
      | 0, GlutState.GLUT_WINDOW_HEIGHT => 600
      | _, GlutState.GLUT_WINDOW_WIDTH => 400
      | _, GlutState.GLUT_WINDOW_HEIGHT => 300 }

/-! ## Shape of a run -/

theorem main_of_ne (env : Collaborators) (argc : Int) (argv : List String)
    (h : argcAfterInit env argc argv ≠ 2) :
    main env argc argv =
      { trace := (bootstrap env argc argv).1, exit := some 1,
        displayFunc := none, idleFunc := none } := by
  unfold argcAfterInit at h
  unfold main
  simp only [ne_eq, h, not_false_eq_true, if_true]

theorem main_of_eq (env : Collaborators) (argc : Int) (argv : List String)
    (h : argcAfterInit env argc argv = 2) :
    main env argc argv = setup env (bootstrap env argc argv).1 (argvAfterInit env argc argv) := by
  unfold argcAfterInit at h
  unfold main argvAfterInit
  simp only [ne_eq, h, not_true_eq_false, if_false]

theorem bootstrap_trace (env : Collaborators) (argc : Int) (argv : List String) :
    ∃ window : Int, (bootstrap env argc argv).1 =
      [Call.glutInit argc argv (argcAfterInit env argc argv) (argvAfterInit env argc argv),
       Call.glutInitDisplayMode DisplayMode.GLUT_RGBA,
       Call.glutInitWindowSize 500 500,
       Call.glutInitWindowPosition 0 0,
       Call.glutCreateWindow "GLLLL" window] :=
  ⟨_, rfl⟩

theorem setup_trace (env : Collaborators) (hist : List Call) (argv : List String) :
    ∃ (stage : Ptr) (s : Int) (prim path node camera : Ptr) (time : usd_TimeCode_t)
      (gf_camera frustum : Ptr) (proj view : gf_Matrix4d_t) (engine : Ptr),
      (s, stage) = env.usd_Stage_Open hist (argv.get? 1) 0 ∧
      setup env hist argv =
        { trace := hist ++
            [Call.usd_Stage_Open (argv.get? 1) 0 stage s,
             Call.printf (toString s ++ "\n"),
             Call.usd_StageRefPtr_GetPseudoRoot stage prim,
             Call.sdf_Path_from_string "/camera1" path,
             Call.usd_StageRefPtr_GetPrimAtPath stage path node,
             Call.usdGeom_Camera_new node camera,
             Call.usd_TimeCode_Default time,
             Call.usdGeom_Camera_GetCamera camera time gf_camera,
             Call.gf_Camera_GetFrustum gf_camera frustum,
             Call.gf_Frustum_ComputeProjectionMatrix frustum proj,
             Call.gf_Frustum_ComputeViewMatrix frustum view,
             Call.usdImaging_GLEngine_new engine,
             Call.usdImaging_GLEngine_SetCameraState engine view proj,
             Call.glClearColor 1 2 3 10,
             Call.glutDisplayFunc (FnPtr.showScreen engine prim),
             Call.glutIdleFunc (FnPtr.showScreen engine prim),
             Call.glutMainLoop]
          exit := none
          displayFunc := some (FnPtr.showScreen engine prim)
          idleFunc := some (FnPtr.showScreen engine prim) } :=
  ⟨_, _, _, _, _, _, _, _, _, _, _, _, rfl, rfl⟩

/-! ## Callback invocations -/

theorem callsOf_append (o : Op) (a b : List Call) :
    callsOf o (a ++ b) = callsOf o a ++ callsOf o b := by
  simp [callsOf]

theorem callsOf_flatten_nil (o : Op) (frames : List (List Call))
    (h : ∀ fr ∈ frames, callsOf o fr = []) : callsOf o frames.flatten = [] := by
  induction frames with
  | nil => rfl
  | cons fr rest ih =>
    rw [List.flatten_cons, callsOf_append, h fr (List.mem_cons_self _ _),
      ih (fun f hf => h f (List.mem_cons_of_mem _ hf))]
    rfl

theorem callsOf_flatten_length (o : Op) (frames : List (List Call))
    (h : ∀ fr ∈ frames, (callsOf o fr).length = 1) :
    (callsOf o frames.flatten).length = frames.length := by
  induction frames with
  | nil => rfl
  | cons fr rest ih =>
    rw [List.flatten_cons, callsOf_append, List.length_append, h fr (List.mem_cons_self _ _),
      ih (fun f hf => h f (List.mem_cons_of_mem _ hf)), List.length_cons]
    omega

theorem stdout_append (a b : List Call) : stdout (a ++ b) = stdout a ++ stdout b := by
  simp [stdout]

theorem stdout_flatten_nil (frames : List (List Call))
    (h : ∀ fr ∈ frames, stdout fr = []) : stdout frames.flatten = [] := by
  induction frames with
  | nil => rfl
  | cons fr rest ih =>
    rw [List.flatten_cons, stdout_append, h fr (List.mem_cons_self _ _),
      ih (fun f hf => h f (List.mem_cons_of_mem _ hf))]
    rfl

theorem showScreen_calls (env : Collaborators) (engine prim : Ptr) (hist : List Call) :
    ∃ w h : Int, showScreen env engine prim hist = frameCalls engine prim w h :=
  ⟨_, _, rfl⟩

theorem glutMainLoop_frames (env : Collaborators) (r : Run) (engine prim : Ptr)
    (hd : r.displayFunc = some (FnPtr.showScreen engine prim))
    (hi : r.idleFunc = some (FnPtr.showScreen engine prim)) (ticks : List Tick) :
    ∀ hist : List Call,
      (glutMainLoop env r hist ticks).length = ticks.length ∧
      ∀ fr ∈ glutMainLoop env r hist ticks, ∃ w h : Int, fr = frameCalls engine prim w h := by
  induction ticks with
  | nil =>
    intro hist
    exact ⟨rfl, fun fr hfr => absurd hfr (List.not_mem_nil fr)⟩
  | cons t ts ih =>
    intro hist
    have hcb : r.callback t = some (FnPtr.showScreen engine prim) := by
      cases t
      · exact hd
      · exact hi
    unfold glutMainLoop
    rw [hcb]
    refine ⟨?_, ?_⟩
    · simp only [List.length_cons, (ih _).1]
    · intro fr hfr
      rcases List.mem_cons.mp hfr with h | h
      · rw [h]
        exact showScreen_calls env engine prim hist
      · exact (ih _).2 fr h

theorem invocations_of_ne (env : Collaborators) (argc : Int) (argv : List String)
    (ticks : List Tick) (h : argcAfterInit env argc argv ≠ 2) :
    invocations env argc argv ticks = [] := by
  unfold invocations
  rw [main_of_ne env argc argv h]

theorem programTrace_of_ne (env : Collaborators) (argc : Int) (argv : List String)
    (ticks : List Tick) (h : argcAfterInit env argc argv ≠ 2) :
    programTrace env argc argv ticks = (bootstrap env argc argv).1 := by
  unfold programTrace
  rw [invocations_of_ne env argc argv ticks h, main_of_ne env argc argv h]
  exact List.append_nil _

/-- Shape of a whole run that passes the argument check. -/
theorem run_of_eq (env : Collaborators) (argc : Int) (argv : List String)
    (ticks : List Tick) (h : argcAfterInit env argc argv = 2) :
    ∃ (window : Int) (stage : Ptr) (s : Int) (prim path node camera : Ptr)
      (time : usd_TimeCode_t) (gf_camera frustum : Ptr) (proj view : gf_Matrix4d_t)
      (engine : Ptr),
      (s, stage) = env.usd_Stage_Open (bootstrap env argc argv).1
        ((argvAfterInit env argc argv).get? 1) 0 ∧
      (main env argc argv).trace =
        [Call.glutInit argc argv 2 (argvAfterInit env argc argv),
         Call.glutInitDisplayMode DisplayMode.GLUT_RGBA,
         Call.glutInitWindowSize 500 500,
         Call.glutInitWindowPosition 0 0,
         Call.glutCreateWindow "GLLLL" window,
         Call.usd_Stage_Open ((argvAfterInit env argc argv).get? 1) 0 stage s,
         Call.printf (toString s ++ "\n"),
         Call.usd_StageRefPtr_GetPseudoRoot stage prim,
         Call.sdf_Path_from_string "/camera1" path,
         Call.usd_StageRefPtr_GetPrimAtPath stage path node,
         Call.usdGeom_Camera_new node camera,
         Call.usd_TimeCode_Default time,
         Call.usdGeom_Camera_GetCamera camera time gf_camera,
         Call.gf_Camera_GetFrustum gf_camera frustum,
         Call.gf_Frustum_ComputeProjectionMatrix frustum proj,
         Call.gf_Frustum_ComputeViewMatrix frustum view,
         Call.usdImaging_GLEngine_new engine,
         Call.usdImaging_GLEngine_SetCameraState engine view proj,
         Call.glClearColor 1 2 3 10,
         Call.glutDisplayFunc (FnPtr.showScreen engine prim),
         Call.glutIdleFunc (FnPtr.showScreen engine prim),
         Call.glutMainLoop] ∧
      (main env argc argv).exit = none ∧
      (invocations env argc argv ticks).length = ticks.length ∧
      ∀ fr ∈ invocations env argc argv ticks, ∃ w h : Int, fr = frameCalls engine prim w h := by
  obtain ⟨window, hb⟩ := bootstrap_trace env argc argv
  obtain ⟨stage, s, prim, path, node, camera, time, gf_camera, frustum, proj, view, engine,
    hs, hsetup⟩ := setup_trace env (bootstrap env argc argv).1 (argvAfterInit env argc argv)
  have hmain := main_of_eq env argc argv h
  rw [hsetup] at hmain
  have hloop := glutMainLoop_frames env (main env argc argv) engine prim
    (by rw [hmain]) (by rw [hmain]) ticks (main env argc argv).trace
  have hinv : invocations env argc argv ticks =
      glutMainLoop env (main env argc argv) (main env argc argv).trace ticks := by
    unfold invocations
    have hexit : (main env argc argv).exit = none := by rw [hmain]
    rw [hexit]
  refine ⟨window, stage, s, prim, path, node, camera, time, gf_camera, frustum, proj, view,
    engine, hs, ?_, by rw [hmain], by rw [hinv]; exact hloop.1, by rw [hinv]; exact hloop.2⟩
  rw [hmain, hb, h]
  rfl

theorem callsOf_frames_nil (o : Op) (ho : o ∉ frameOps) (frames : List (List Call))
    (engine prim : Ptr)
    (h : ∀ fr ∈ frames, ∃ w h : Int, fr = frameCalls engine prim w h) :
    callsOf o frames.flatten = [] := by
  apply callsOf_flatten_nil
  intro fr hfr
  obtain ⟨w, ht, rfl⟩ := h fr hfr
  simp only [frameOps, List.mem_cons, List.mem_singleton, not_or, List.not_mem_nil,
    or_false] at ho
  obtain ⟨h1, h2, _, h4, h5, h6⟩ := ho
  simp [callsOf, frameCalls, List.filter, Call.op, Ne.symm h1, Ne.symm h2, Ne.symm h4,
    Ne.symm h5, Ne.symm h6]

theorem stdout_frames_nil (frames : List (List Call)) (engine prim : Ptr)
    (h : ∀ fr ∈ frames, ∃ w h : Int, fr = frameCalls engine prim w h) :
    stdout frames.flatten = [] := by
  apply stdout_flatten_nil
  intro fr hfr
  obtain ⟨w, ht, rfl⟩ := h fr hfr
  rfl

/-! ## Argument validation -/

/-- C1, as stated, fails: started with three arguments (`argc = 3`), of which
`glutInit` consumes the toolkit option `-iconic`, `main` does not return 1 but
opens the scene `scene.usda` and enters the event loop. -/
theorem three_arguments_accepted :
    ((["render_c", "-iconic", "scene.usda"].length : Int) = 3 ∧ (3 : Int) ≠ 2) ∧
    (main (consumingEnv 0) 3 ["render_c", "-iconic", "scene.usda"]).exit ≠ some 1 ∧
    Call.usd_Stage_Open (some "scene.usda") 0 11 0 ∈
      (main (consumingEnv 0) 3 ["render_c", "-iconic", "scene.usda"]).trace ∧
    Call.glutMainLoop ∈ (main (consumingEnv 0) 3 ["render_c", "-iconic", "scene.usda"]).trace := by
  decide

/-- C1 (amended): whenever the argument count that `glutInit` leaves behind is
not 2, `main` returns exit status 1 and the whole run consists of the five
bootstrap calls: no scene open, no camera resolution, no engine creation, no
callback registration, no event-loop entry and no callback invocation. -/
theorem wrong_count_after_init_exits (env : Collaborators) (argc : Int) (argv : List String)
    (ticks : List Tick) (h : argcAfterInit env argc argv ≠ 2) :
    (main env argc argv).exit = some 1 ∧
    programTrace env argc argv ticks = (bootstrap env argc argv).1 ∧
    ∀ c ∈ programTrace env argc argv ticks, c.op ∉ setupOps ∧ c.op ∉ frameOps := by
  have hmain := main_of_ne env argc argv h
  obtain ⟨window, hb⟩ := bootstrap_trace env argc argv
  have htrace := programTrace_of_ne env argc argv ticks h
  refine ⟨by rw [hmain], htrace, ?_⟩
  intro c hc
  rw [htrace, hb] at hc
  simp only [List.mem_cons, List.mem_singleton, List.not_mem_nil, or_false] at hc
  rcases hc with rfl | rfl | rfl | rfl | rfl <;> simp [Call.op, setupOps, frameOps]

/-- C1 (amended) at a concrete run: started without a file name, with libraries
that leave the arguments alone, `main` returns 1 after the bootstrap. -/
theorem wrong_count_after_init_exits_witness :
    argcAfterInit (plainEnv 0) 1 ["render_c"] ≠ 2 ∧
    (main (plainEnv 0) 1 ["render_c"]).exit = some 1 ∧
    programTrace (plainEnv 0) 1 ["render_c"] [Tick.idle] =
      (bootstrap (plainEnv 0) 1 ["render_c"]).1 :=
  ⟨by decide,
   (wrong_count_after_init_exits (plainEnv 0) 1 ["render_c"] [Tick.idle] (by decide)).1,
   (wrong_count_after_init_exits (plainEnv 0) 1 ["render_c"] [Tick.idle] (by decide)).2.1⟩

/-! ## Load status -/

/-- C2, as stated, fails: started with argument count 2 (`render_c -iconic`)
against a loader that would report status 7, nothing is written to standard
output and the camera resolver is never called, because `glutInit` consumed
the option and `main` returned 1. -/
theorem no_status_line_when_init_consumes :
    ((["render_c", "-iconic"].length : Int) = 2 ∧
      (consumingEnv 7).usd_Stage_Open [] none 0 = (7, 11)) ∧
    stdout (programTrace (consumingEnv 7) 2 ["render_c", "-iconic"] [Tick.idle]) = [] ∧
    callsOf Op.usd_StageRefPtr_GetPseudoRoot
      (programTrace (consumingEnv 7) 2 ["render_c", "-iconic"] [Tick.idle]) = [] ∧
    (main (consumingEnv 7) 2 ["render_c", "-iconic"]).exit = some 1 := by
  decide

/-- C2 (amended): whenever the argument count that `glutInit` leaves behind is
2, and whatever status `s` and stage handle the scene open hands back, the
whole run writes exactly one text to standard output, the decimal rendering of
`s` followed by a newline, and the open is directly followed by that write, by
get-pseudo-root on the handle, path-from-string and get-prim-at-path on the
handle. -/
theorem load_status_surfaced (env : Collaborators) (argc : Int) (argv : List String)
    (ticks : List Tick) (s : Int) (stage : Ptr)
    (h : argcAfterInit env argc argv = 2)
    (hs : env.usd_Stage_Open (bootstrap env argc argv).1
      ((argvAfterInit env argc argv).get? 1) 0 = (s, stage)) :
    stdout (programTrace env argc argv ticks) = [toString s ++ "\n"] ∧
    ∃ prim path node : Ptr,
      [Call.usd_Stage_Open ((argvAfterInit env argc argv).get? 1) 0 stage s,
       Call.printf (toString s ++ "\n"),
       Call.usd_StageRefPtr_GetPseudoRoot stage prim,
       Call.sdf_Path_from_string "/camera1" path,
       Call.usd_StageRefPtr_GetPrimAtPath stage path node] <:+:
        programTrace env argc argv ticks := by
  obtain ⟨window, stage', s', prim, path, node, camera, time, gf_camera, frustum, proj, view,
    engine, hs', htrace, -, -, hframes⟩ := run_of_eq env argc argv ticks h
  rw [hs] at hs'
  obtain ⟨rfl, rfl⟩ := Prod.mk.inj hs'
  unfold programTrace
  rw [htrace]
  refine ⟨?_, prim, path, node, ?_⟩
  · rw [stdout_append, stdout_frames_nil _ engine prim hframes]
    rfl
  · refine ⟨[Call.glutInit argc argv 2 (argvAfterInit env argc argv),
      Call.glutInitDisplayMode DisplayMode.GLUT_RGBA, Call.glutInitWindowSize 500 500,
      Call.glutInitWindowPosition 0 0, Call.glutCreateWindow "GLLLL" window],
      [Call.usdGeom_Camera_new node camera, Call.usd_TimeCode_Default time,
       Call.usdGeom_Camera_GetCamera camera time gf_camera,
       Call.gf_Camera_GetFrustum gf_camera frustum,
       Call.gf_Frustum_ComputeProjectionMatrix frustum proj,
       Call.gf_Frustum_ComputeViewMatrix frustum view, Call.usdImaging_GLEngine_new engine,
       Call.usdImaging_GLEngine_SetCameraState engine view proj, Call.glClearColor 1 2 3 10,
       Call.glutDisplayFunc (FnPtr.showScreen engine prim),
       Call.glutIdleFunc (FnPtr.showScreen engine prim), Call.glutMainLoop] ++
        (invocations env argc argv ticks).flatten, ?_⟩
    rfl

/-- C2 (amended) at a concrete run: a loader reporting the nonzero status 7. -/
theorem load_status_surfaced_witness :
    stdout (programTrace (plainEnv 7) 2 ["render_c", "scene.usda"] [Tick.idle]) = ["7\n"] :=
  (load_status_surfaced (plainEnv 7) 2 ["render_c", "scene.usda"] [Tick.idle] 7 11
    (by decide) (by decide)).1

/-! ## Camera path -/

/-- C3, as stated, fails: started with argument count 2 (`render_c -iconic`),
no path is built and the hierarchy is never queried, because `glutInit`
consumed the option and `main` returned 1. -/
theorem no_camera_path_when_init_consumes :
    (["render_c", "-iconic"].length : Int) = 2 ∧
    callsOf Op.sdf_Path_from_string
      (programTrace (consumingEnv 0) 2 ["render_c", "-iconic"] []) = [] ∧
    callsOf Op.usd_StageRefPtr_GetPrimAtPath
      (programTrace (consumingEnv 0) 2 ["render_c", "-iconic"] []) = [] := by
  decide

/-- C3 (amended): whenever the argument count that `glutInit` leaves behind is
2, whatever the file name and whatever the libraries answer, the whole run
builds exactly one path, from the literal `/camera1`, and queries the hierarchy
exactly once, with that path and the stage handle handed back by the single
scene open. -/
theorem fixed_camera_path (env : Collaborators) (argc : Int) (argv : List String)
    (ticks : List Tick) (h : argcAfterInit env argc argv = 2) :
    ∃ (filename : Option String) (stage : Ptr) (s : Int) (path node : Ptr),
      callsOf Op.usd_Stage_Open (programTrace env argc argv ticks) =
        [Call.usd_Stage_Open filename 0 stage s] ∧
      callsOf Op.sdf_Path_from_string (programTrace env argc argv ticks) =
        [Call.sdf_Path_from_string "/camera1" path] ∧
      callsOf Op.usd_StageRefPtr_GetPrimAtPath (programTrace env argc argv ticks) =
        [Call.usd_StageRefPtr_GetPrimAtPath stage path node] := by
  obtain ⟨window, stage, s, prim, path, node, camera, time, gf_camera, frustum, proj, view,
    engine, -, htrace, -, -, hframes⟩ := run_of_eq env argc argv ticks h
  refine ⟨(argvAfterInit env argc argv).get? 1, stage, s, path, node, ?_, ?_, ?_⟩ <;>
  · unfold programTrace
    rw [htrace, callsOf_append, callsOf_frames_nil _ (by decide) _ engine prim hframes]
    rfl

/-- C3 (amended) at a concrete run with two callback invocations. -/
theorem fixed_camera_path_witness :
    ∃ (filename : Option String) (stage : Ptr) (s : Int) (path node : Ptr),
      callsOf Op.usd_Stage_Open
          (programTrace (plainEnv 0) 2 ["render_c", "other.usda"] [Tick.display, Tick.idle]) =
        [Call.usd_Stage_Open filename 0 stage s] ∧
      callsOf Op.sdf_Path_from_string
          (programTrace (plainEnv 0) 2 ["render_c", "other.usda"] [Tick.display, Tick.idle]) =
        [Call.sdf_Path_from_string "/camera1" path] ∧
      callsOf Op.usd_StageRefPtr_GetPrimAtPath
          (programTrace (plainEnv 0) 2 ["render_c", "other.usda"] [Tick.display, Tick.idle]) =
        [Call.usd_StageRefPtr_GetPrimAtPath stage path node] :=
  fixed_camera_path (plainEnv 0) 2 ["render_c", "other.usda"] [Tick.display, Tick.idle]
    (by decide)

/-! ## Camera state -/

theorem argc_of_exit_none (env : Collaborators) (argc : Int) (argv : List String)
    (h : (main env argc argv).exit = none) : argcAfterInit env argc argv = 2 := by
  by_contra hne
  rw [main_of_ne env argc argv hne] at h
  exact Option.noConfusion h

/-- C4: in every run in which `main` has entered the event loop, for every
sequence of display and idle events, the whole run contains exactly one
set-camera-state call; it is made by `main`, with the view matrix first and the
projection matrix second, both as handed back by the view and projection
computations on the one frustum.  There is one callback invocation per event,
each with exactly one set-viewport and one render call and no set-camera-state
call, so that the run has as many set-viewport and render calls as events. -/
theorem camera_state_computed_once (env : Collaborators) (argc : Int) (argv : List String)
    (ticks : List Tick) (h : (main env argc argv).exit = none) :
    ∃ (gf_camera frustum engine : Ptr) (proj view : gf_Matrix4d_t),
      callsOf Op.gf_Camera_GetFrustum (programTrace env argc argv ticks) =
        [Call.gf_Camera_GetFrustum gf_camera frustum] ∧
      callsOf Op.gf_Frustum_ComputeViewMatrix (programTrace env argc argv ticks) =
        [Call.gf_Frustum_ComputeViewMatrix frustum view] ∧
      callsOf Op.gf_Frustum_ComputeProjectionMatrix (programTrace env argc argv ticks) =
        [Call.gf_Frustum_ComputeProjectionMatrix frustum proj] ∧
      callsOf Op.usdImaging_GLEngine_SetCameraState (programTrace env argc argv ticks) =
        [Call.usdImaging_GLEngine_SetCameraState engine view proj] ∧
      Call.usdImaging_GLEngine_SetCameraState engine view proj ∈ (main env argc argv).trace ∧
      (invocations env argc argv ticks).length = ticks.length ∧
      (∀ fr ∈ invocations env argc argv ticks,
        (callsOf Op.usdImaging_GLEngine_SetRenderViewport fr).length = 1 ∧
        (callsOf Op.usdImaging_render fr).length = 1 ∧
        callsOf Op.usdImaging_GLEngine_SetCameraState fr = []) ∧
      (callsOf Op.usdImaging_GLEngine_SetRenderViewport
        (programTrace env argc argv ticks)).length = ticks.length ∧
      (callsOf Op.usdImaging_render (programTrace env argc argv ticks)).length =
        ticks.length := by
  obtain ⟨window, stage, s, prim, path, node, camera, time, gf_camera, frustum, proj, view,
    engine, -, htrace, -, hlen, hframes⟩ :=
    run_of_eq env argc argv ticks (argc_of_exit_none env argc argv h)
  have hper : ∀ fr ∈ invocations env argc argv ticks,
      (callsOf Op.usdImaging_GLEngine_SetRenderViewport fr).length = 1 ∧
      (callsOf Op.usdImaging_render fr).length = 1 ∧
      callsOf Op.usdImaging_GLEngine_SetCameraState fr = [] := by
    intro fr hfr
    obtain ⟨w, ht, rfl⟩ := hframes fr hfr
    exact ⟨rfl, rfl, rfl⟩
  refine ⟨gf_camera, frustum, engine, proj, view, ?_, ?_, ?_, ?_, ?_, hlen, hper, ?_, ?_⟩
  · unfold programTrace
    rw [htrace, callsOf_append, callsOf_frames_nil _ (by decide) _ engine prim hframes]
    rfl
  · unfold programTrace
    rw [htrace, callsOf_append, callsOf_frames_nil _ (by decide) _ engine prim hframes]
    rfl
  · unfold programTrace
    rw [htrace, callsOf_append, callsOf_frames_nil _ (by decide) _ engine prim hframes]
    rfl
  · unfold programTrace
    rw [htrace, callsOf_append, callsOf_frames_nil _ (by decide) _ engine prim hframes]
    rfl
  · rw [htrace]
    simp
  · unfold programTrace
    rw [htrace, callsOf_append, List.length_append,
      callsOf_flatten_length _ _ (fun fr hfr => (hper fr hfr).1), hlen]
    exact Nat.zero_add _
  · unfold programTrace
    rw [htrace, callsOf_append, List.length_append,
      callsOf_flatten_length _ _ (fun fr hfr => (hper fr hfr).2.1), hlen]
    exact Nat.zero_add _

/-- C4 at a concrete run with three callback invocations: one set-camera-state
call, three set-viewport calls. -/
theorem camera_state_computed_once_witness :
    (callsOf Op.usdImaging_GLEngine_SetCameraState
      (programTrace (plainEnv 0) 2 ["render_c", "scene.usda"]
        [Tick.idle, Tick.display, Tick.idle])).length = 1 ∧
    (callsOf Op.usdImaging_GLEngine_SetRenderViewport
      (programTrace (plainEnv 0) 2 ["render_c", "scene.usda"]
        [Tick.idle, Tick.display, Tick.idle])).length = 3 := by
  obtain ⟨_, _, _, _, _, -, -, -, h4, -, -, -, h8, -⟩ :=
    camera_state_computed_once (plainEnv 0) 2 ["render_c", "scene.usda"]
      [Tick.idle, Tick.display, Tick.idle] (by decide)
  exact ⟨by rw [h4]; rfl, h8⟩

/-! ## Viewport -/

theorem invocations_frames (env : Collaborators) (argc : Int) (argv : List String)
    (ticks : List Tick) :
    ∃ engine prim : Ptr, ∀ fr ∈ invocations env argc argv ticks,
      ∃ w h : Int, fr = frameCalls engine prim w h := by
  by_cases h : argcAfterInit env argc argv = 2
  · obtain ⟨window, stage, s, prim, path, node, camera, time, gf_camera, frustum, proj, view,
      engine, -, -, -, -, hframes⟩ := run_of_eq env argc argv ticks h
    exact ⟨engine, prim, hframes⟩
  · refine ⟨0, 0, ?_⟩
    rw [invocations_of_ne env argc argv ticks h]
    intro fr hfr
    exact absurd hfr (List.not_mem_nil fr)

/-- C5: in every callback invocation of every run, the width `w` and the height
`h` are queried in that invocation, after the clear, and the rectangle handed
to set-viewport in the same invocation has `x = 0`, `y = 0`, `z = w`, `w = h`.
In particular, when the queries of two successive invocations answer 800 and
600, then 400 and 300, the rectangles are (0, 0, 800, 600), then
(0, 0, 400, 300). -/
theorem viewport_reflects_live_size (env : Collaborators) (argc : Int) (argv : List String)
    (ticks : List Tick) :
    (∀ fr ∈ invocations env argc argv ticks, ∃ (engine prim : Ptr) (w h : Int),
      fr =
        [Call.glClear [BufferBit.GL_COLOR_BUFFER_BIT, BufferBit.GL_DEPTH_BUFFER_BIT],
         Call.glutGet GlutState.GLUT_WINDOW_WIDTH w,
         Call.glutGet GlutState.GLUT_WINDOW_HEIGHT h,
         Call.usdImaging_GLEngine_SetRenderViewport engine { x := 0, y := 0, z := w, w := h },
         Call.usdImaging_render engine prim,
         Call.glutSwapBuffers]) ∧
    ((invocations env argc argv ticks).map sizeQueries =
        [[(GlutState.GLUT_WINDOW_WIDTH, 800), (GlutState.GLUT_WINDOW_HEIGHT, 600)],
         [(GlutState.GLUT_WINDOW_WIDTH, 400), (GlutState.GLUT_WINDOW_HEIGHT, 300)]] →
      (invocations env argc argv ticks).map viewports =
        [[{ x := 0, y := 0, z := 800, w := 600 }],
         [{ x := 0, y := 0, z := 400, w := 300 }]]) := by
  obtain ⟨engine, prim, hframes⟩ := invocations_frames env argc argv ticks
  refine ⟨fun fr hfr => ?_, ?_⟩
  · obtain ⟨w, h, hfr⟩ := hframes fr hfr
    exact ⟨engine, prim, w, h, hfr⟩
  · intro hq
    rcases hinv : invocations env argc argv ticks with _ | ⟨f1, _ | ⟨f2, _ | ⟨f3, rest⟩⟩⟩
    · rw [hinv] at hq
      exact absurd hq (by simp)
    · rw [hinv] at hq
      exact absurd hq (by simp)
    · rw [hinv] at hq hframes
      obtain ⟨w1, h1, rfl⟩ := hframes f1 (by simp)
      obtain ⟨w2, h2, rfl⟩ := hframes f2 (by simp)
      simp only [List.map_cons, List.map_nil, sizeQueries, frameCalls, List.filterMap_cons,
        List.filterMap_nil, List.cons.injEq, Prod.mk.injEq, true_and, and_true] at hq
      obtain ⟨⟨rfl, rfl⟩, rfl, rfl⟩ := hq
      rfl
    · rw [hinv] at hq
      exact absurd hq (by simp)

/-- C5 at a concrete run: the window is 800 by 600 during the first callback
invocation and 400 by 300 during the second. -/
theorem viewport_reflects_live_size_witness :
    (invocations resizingEnv 2 ["render_c", "scene.usda"] [Tick.idle, Tick.display]).map
        viewports =
      [[{ x := 0, y := 0, z := 800, w := 600 }], [{ x := 0, y := 0, z := 400, w := 300 }]] :=
  (viewport_reflects_live_size resizingEnv 2 ["render_c", "scene.usda"]
    [Tick.idle, Tick.display]).2 (by decide)

/-! ## Time -/

/-- C6, as stated, fails: started with argument count 2 (`render_c -iconic`),
the camera is never evaluated and no frustum is computed, because `glutInit`
consumed the option and `main` returned 1. -/
theorem no_camera_evaluation_when_init_consumes :
    (["render_c", "-iconic"].length : Int) = 2 ∧
    callsOf Op.usdGeom_Camera_GetCamera
      (programTrace (consumingEnv 0) 2 ["render_c", "-iconic"] [Tick.idle, Tick.display]) = [] ∧
    callsOf Op.gf_Camera_GetFrustum
      (programTrace (consumingEnv 0) 2 ["render_c", "-iconic"] [Tick.idle, Tick.display]) = [] := by
  decide

/-- C6 (amended): whenever the argument count that `glutInit` leaves behind is
2, for every sequence of display and idle events, the whole run contains
exactly one default-time construction, one camera evaluation and one frustum
computation, all made by `main`; the time passed to the camera evaluation is
the one handed back by the default-time construction, the frustum is computed
from the camera description handed back by the evaluation, and no callback
invocation constructs a time code, evaluates the camera or computes a frustum
or a matrix. -/
theorem no_time_advance (env : Collaborators) (argc : Int) (argv : List String)
    (ticks : List Tick) (h : argcAfterInit env argc argv = 2) :
    ∃ (camera : Ptr) (time : usd_TimeCode_t) (gf_camera frustum : Ptr),
      callsOf Op.usd_TimeCode_Default (programTrace env argc argv ticks) =
        [Call.usd_TimeCode_Default time] ∧
      callsOf Op.usdGeom_Camera_GetCamera (programTrace env argc argv ticks) =
        [Call.usdGeom_Camera_GetCamera camera time gf_camera] ∧
      callsOf Op.gf_Camera_GetFrustum (programTrace env argc argv ticks) =
        [Call.gf_Camera_GetFrustum gf_camera frustum] ∧
      Call.usd_TimeCode_Default time ∈ (main env argc argv).trace ∧
      Call.usdGeom_Camera_GetCamera camera time gf_camera ∈ (main env argc argv).trace ∧
      Call.gf_Camera_GetFrustum gf_camera frustum ∈ (main env argc argv).trace ∧
      ∀ fr ∈ invocations env argc argv ticks, ∀ c ∈ fr, c.op ∉ cameraOps := by
  obtain ⟨window, stage, s, prim, path, node, camera, time, gf_camera, frustum, proj, view,
    engine, -, htrace, -, -, hframes⟩ := run_of_eq env argc argv ticks h
  refine ⟨camera, time, gf_camera, frustum, ?_, ?_, ?_, ?_, ?_, ?_, ?_⟩
  · unfold programTrace
    rw [htrace, callsOf_append, callsOf_frames_nil _ (by decide) _ engine prim hframes]
    rfl
  · unfold programTrace
    rw [htrace, callsOf_append, callsOf_frames_nil _ (by decide) _ engine prim hframes]
    rfl
  · unfold programTrace
    rw [htrace, callsOf_append, callsOf_frames_nil _ (by decide) _ engine prim hframes]
    rfl
  · rw [htrace]
    simp
  · rw [htrace]
    simp
  · rw [htrace]
    simp
  · intro fr hfr c hc
    obtain ⟨w, ht, rfl⟩ := hframes fr hfr
    simp only [frameCalls, List.mem_cons, List.mem_singleton, List.not_mem_nil, or_false] at hc
    rcases hc with rfl | rfl | rfl | rfl | rfl | rfl <;> simp [Call.op, cameraOps]

/-- C6 (amended) at a concrete run with two callback invocations: one camera
evaluation in the whole run. -/
theorem no_time_advance_witness :
    (callsOf Op.usdGeom_Camera_GetCamera
      (programTrace (plainEnv 0) 2 ["render_c", "scene.usda"] [Tick.display, Tick.idle])).length
      = 1 := by
  obtain ⟨_, _, _, _, -, h2, -⟩ :=
    no_time_advance (plainEnv 0) 2 ["render_c", "scene.usda"] [Tick.display, Tick.idle]
      (by decide)
  rw [h2]
  rfl

/-! ## Order of the bootstrap -/

/-- C7: every run, whatever the argument count, begins with windowing init,
set-display-mode(RGBA), set-window-size(500, 500), set-window-position(0, 0)
and create-window, in this order.  When `main` returns 1 these five calls are
the whole run, so the window has been created by then; a scene open never
occurs among the first five calls, so it comes strictly after create-window;
and when the count left by `glutInit` is 2 the scene open is the very next
call. -/
theorem window_bootstrap_first (env : Collaborators) (argc : Int) (argv : List String)
    (ticks : List Tick) :
    ∃ (argcOut : Int) (argvOut : List String) (window : Int) (rest : List Call),
      programTrace env argc argv ticks =
        [Call.glutInit argc argv argcOut argvOut,
         Call.glutInitDisplayMode DisplayMode.GLUT_RGBA,
         Call.glutInitWindowSize 500 500,
         Call.glutInitWindowPosition 0 0,
         Call.glutCreateWindow "GLLLL" window] ++ rest ∧
      ((main env argc argv).exit = some 1 → rest = []) ∧
      (∀ (i : Nat) (c : Call), (programTrace env argc argv ticks)[i]? = some c →
        c.op = Op.usd_Stage_Open → 4 < i) ∧
      (argcAfterInit env argc argv = 2 →
        ∃ (filename : Option String) (stage : Ptr) (s : Int) (later : List Call),
          rest = Call.usd_Stage_Open filename 0 stage s :: later) := by
  have key : ∃ (window : Int) (rest : List Call),
      programTrace env argc argv ticks =
        [Call.glutInit argc argv (argcAfterInit env argc argv) (argvAfterInit env argc argv),
         Call.glutInitDisplayMode DisplayMode.GLUT_RGBA,
         Call.glutInitWindowSize 500 500,
         Call.glutInitWindowPosition 0 0,
         Call.glutCreateWindow "GLLLL" window] ++ rest ∧
      ((main env argc argv).exit = some 1 → rest = []) ∧
      (argcAfterInit env argc argv = 2 →
        ∃ (filename : Option String) (stage : Ptr) (s : Int) (later : List Call),
          rest = Call.usd_Stage_Open filename 0 stage s :: later) := by
    by_cases h : argcAfterInit env argc argv = 2
    · obtain ⟨window, stage, s, prim, path, node, camera, time, gf_camera, frustum, proj,
        view, engine, -, htrace, hexit, -, -⟩ := run_of_eq env argc argv ticks h
      refine ⟨window,
        [Call.usd_Stage_Open ((argvAfterInit env argc argv).get? 1) 0 stage s,
         Call.printf (toString s ++ "\n"),
         Call.usd_StageRefPtr_GetPseudoRoot stage prim,
         Call.sdf_Path_from_string "/camera1" path,
         Call.usd_StageRefPtr_GetPrimAtPath stage path node,
         Call.usdGeom_Camera_new node camera, Call.usd_TimeCode_Default time,
         Call.usdGeom_Camera_GetCamera camera time gf_camera,
         Call.gf_Camera_GetFrustum gf_camera frustum,
         Call.gf_Frustum_ComputeProjectionMatrix frustum proj,
         Call.gf_Frustum_ComputeViewMatrix frustum view, Call.usdImaging_GLEngine_new engine,
         Call.usdImaging_GLEngine_SetCameraState engine view proj, Call.glClearColor 1 2 3 10,
         Call.glutDisplayFunc (FnPtr.showScreen engine prim),
         Call.glutIdleFunc (FnPtr.showScreen engine prim), Call.glutMainLoop] ++
          (invocations env argc argv ticks).flatten, ?_, ?_, ?_⟩
      · unfold programTrace
        rw [htrace, h]
        rfl
      · intro h1
        rw [hexit] at h1
        exact Option.noConfusion h1
      · intro _
        exact ⟨_, _, _, _, rfl⟩
    · obtain ⟨window, hb⟩ := bootstrap_trace env argc argv
      refine ⟨window, [], ?_, fun _ => rfl, fun h2 => absurd h2 h⟩
      rw [programTrace_of_ne env argc argv ticks h, hb]
      rfl
  obtain ⟨window, rest, htrace, hexit, hopen⟩ := key
  refine ⟨_, _, window, rest, htrace, hexit, ?_, hopen⟩
  intro i c hi hop
  by_contra hlt
  rw [htrace] at hi
  have hi4 : i ≤ 4 := by omega
  interval_cases i <;> simp at hi <;> subst hi <;> simp [Call.op] at hop

/-! ## Render cycle -/

/-- C8: in every run in which `main` has entered the event loop, the display
callback and the idle callback are each registered exactly once, both with
`showScreen` bound to the one engine created by `main` and to the node handed
back by the one get-pseudo-root call, and these two registrations are directly
followed by the single event-loop entry, which ends `main`.  There is one
callback invocation per event, and each performs exactly: clear of the colour
and depth buffers, width query, height query, set-viewport on that engine,
render on that engine with that pseudo-root node, swap buffers. -/
theorem render_cycle (env : Collaborators) (argc : Int) (argv : List String)
    (ticks : List Tick) (h : (main env argc argv).exit = none) :
    ∃ (stage prim engine : Ptr) (before : List Call),
      callsOf Op.usd_StageRefPtr_GetPseudoRoot (programTrace env argc argv ticks) =
        [Call.usd_StageRefPtr_GetPseudoRoot stage prim] ∧
      callsOf Op.usdImaging_GLEngine_new (programTrace env argc argv ticks) =
        [Call.usdImaging_GLEngine_new engine] ∧
      callsOf Op.glutDisplayFunc (programTrace env argc argv ticks) =
        [Call.glutDisplayFunc (FnPtr.showScreen engine prim)] ∧
      callsOf Op.glutIdleFunc (programTrace env argc argv ticks) =
        [Call.glutIdleFunc (FnPtr.showScreen engine prim)] ∧
      callsOf Op.glutMainLoop (programTrace env argc argv ticks) = [Call.glutMainLoop] ∧
      (main env argc argv).trace = before ++
        [Call.glutDisplayFunc (FnPtr.showScreen engine prim),
         Call.glutIdleFunc (FnPtr.showScreen engine prim),
         Call.glutMainLoop] ∧
      (main env argc argv).displayFunc = some (FnPtr.showScreen engine prim) ∧
      (main env argc argv).idleFunc = some (FnPtr.showScreen engine prim) ∧
      (invocations env argc argv ticks).length = ticks.length ∧
      ∀ fr ∈ invocations env argc argv ticks, ∃ w h : Int,
        fr =
          [Call.glClear [BufferBit.GL_COLOR_BUFFER_BIT, BufferBit.GL_DEPTH_BUFFER_BIT],
           Call.glutGet GlutState.GLUT_WINDOW_WIDTH w,
           Call.glutGet GlutState.GLUT_WINDOW_HEIGHT h,
           Call.usdImaging_GLEngine_SetRenderViewport engine
             { x := 0, y := 0, z := w, w := h },
           Call.usdImaging_render engine prim,
           Call.glutSwapBuffers] := by
  have h2 := argc_of_exit_none env argc argv h
  obtain ⟨window, stage, s, prim, path, node, camera, time, gf_camera, frustum, proj, view,
    engine, -, htrace, -, hlen, hframes⟩ := run_of_eq env argc argv ticks h2
  obtain ⟨stage', s', prim', path', node', camera', time', gf_camera', frustum', proj', view',
    engine', -, hsetup⟩ :=
    setup_trace env (bootstrap env argc argv).1 (argvAfterInit env argc argv)
  have hmain := main_of_eq env argc argv h2
  rw [hsetup] at hmain
  have hd : (main env argc argv).displayFunc = some (FnPtr.showScreen engine' prim') := by
    rw [hmain]
  have hi : (main env argc argv).idleFunc = some (FnPtr.showScreen engine' prim') := by
    rw [hmain]
  have hfn : FnPtr.showScreen engine' prim' = FnPtr.showScreen engine prim := by
    have ht := htrace
    rw [hmain] at ht
    obtain ⟨window', hb⟩ := bootstrap_trace env argc argv
    rw [hb] at ht
    simp only [List.cons_append, List.nil_append, List.cons.injEq, Call.glutDisplayFunc.injEq]
      at ht
    exact ht.2.2.2.2.2.2.2.2.2.2.2.2.2.2.2.2.2.2.2.1
  rw [hfn] at hd hi
  refine ⟨stage, prim, engine, (main env argc argv).trace.take 19,
    ?_, ?_, ?_, ?_, ?_, ?_, hd, hi, hlen, hframes⟩
  · unfold programTrace
    rw [htrace, callsOf_append, callsOf_frames_nil _ (by decide) _ engine prim hframes]
    rfl
  · unfold programTrace
    rw [htrace, callsOf_append, callsOf_frames_nil _ (by decide) _ engine prim hframes]
    rfl
  · unfold programTrace
    rw [htrace, callsOf_append, callsOf_frames_nil _ (by decide) _ engine prim hframes]
    rfl
  · unfold programTrace
    rw [htrace, callsOf_append, callsOf_frames_nil _ (by decide) _ engine prim hframes]
    rfl
  · unfold programTrace
    rw [htrace, callsOf_append, callsOf_frames_nil _ (by decide) _ engine prim hframes]
    rfl
  · rw [htrace]
    rfl

/-- C8 at a concrete run with two events: `main` enters the event loop and
there are two callback invocations. -/
theorem render_cycle_witness :
    (main (plainEnv 0) 2 ["render_c", "scene.usda"]).exit = none ∧
    (invocations (plainEnv 0) 2 ["render_c", "scene.usda"] [Tick.display, Tick.idle]).length
      = 2 := by
  obtain ⟨_, _, _, _, -, -, -, -, -, -, -, -, hlen, -⟩ :=
    render_cycle (plainEnv 0) 2 ["render_c", "scene.usda"] [Tick.display, Tick.idle]
      (by decide)
  exact ⟨by decide, hlen⟩

/-! ## Unchecked handles -/

theorem handlesPassedOn_of_eq (env : Collaborators) (argc : Int) (argv : List String)
    (h : argcAfterInit env argc argv = 2) :
    (main env argc argv).trace.map Call.op = bootstrapOps ++ setupOps ∧
    (main env argc argv).exit = none ∧
    HandlesPassedOn (main env argc argv).trace := by
  obtain ⟨window, stage, s, prim, path, node, camera, time, gf_camera, frustum, proj, view,
    engine, -, htrace, hexit, -, -⟩ := run_of_eq env argc argv [] h
  refine ⟨?_, hexit, ?_⟩
  · rw [htrace]
    rfl
  · rw [htrace]
    exact ⟨_, stage, s, prim, path, node, camera, time, gf_camera, frustum, proj, view,
      rfl, rfl, rfl, rfl, rfl, rfl, rfl, rfl, rfl, rfl⟩

/-- C9, as stated, fails: two runs started with argument count 2
(`render_c -iconic`) against libraries that answer differently.  Against the
first, `main` goes through the whole startup and enters the event loop; against
the second, whose `glutInit` consumes the option, `main` returns 1 after the
bootstrap without entering the event loop.  The two sequences of operations
differ. -/
theorem startup_differs_when_init_consumes :
    (["render_c", "-iconic"].length : Int) = 2 ∧
    (main (plainEnv 0) 2 ["render_c", "-iconic"]).trace.map Call.op ≠
      (main (consumingEnv 7) 2 ["render_c", "-iconic"]).trace.map Call.op ∧
    (main (plainEnv 0) 2 ["render_c", "-iconic"]).exit = none ∧
    (main (consumingEnv 7) 2 ["render_c", "-iconic"]).exit = some 1 ∧
    Call.glutMainLoop ∉ (main (consumingEnv 7) 2 ["render_c", "-iconic"]).trace := by
  decide

/-- C9 (amended): for every two runs in which the argument count that
`glutInit` leaves behind is 2, whatever the libraries answer in either run,
`main` performs the same operations in the same order up to and including the
event-loop entry, namely the five bootstrap operations followed by the
seventeen startup operations, without returning; and in each run every handle
is passed on unchanged: the node handed back by the path query is the one given
to the camera wrapper constructor, and the wrapper handed back is the one
evaluated for the frustum. -/
theorem resolution_failure_not_detected (env₁ env₂ : Collaborators) (argc₁ argc₂ : Int)
    (argv₁ argv₂ : List String)
    (h₁ : argcAfterInit env₁ argc₁ argv₁ = 2) (h₂ : argcAfterInit env₂ argc₂ argv₂ = 2) :
    (main env₁ argc₁ argv₁).trace.map Call.op = (main env₂ argc₂ argv₂).trace.map Call.op ∧
    (main env₁ argc₁ argv₁).trace.map Call.op = bootstrapOps ++ setupOps ∧
    (main env₁ argc₁ argv₁).exit = none ∧
    (main env₂ argc₂ argv₂).exit = none ∧
    HandlesPassedOn (main env₁ argc₁ argv₁).trace ∧
    HandlesPassedOn (main env₂ argc₂ argv₂).trace := by
  obtain ⟨ho₁, he₁, hp₁⟩ := handlesPassedOn_of_eq env₁ argc₁ argv₁ h₁
  obtain ⟨ho₂, he₂, hp₂⟩ := handlesPassedOn_of_eq env₂ argc₂ argv₂ h₂
  exact ⟨ho₁.trans ho₂.symm, ho₁, he₁, he₂, hp₁, hp₂⟩

/-- C9 (amended) at two concrete runs: one against libraries that load the
scene, one against libraries whose open fails and which hand out null handles
throughout. -/
theorem resolution_failure_not_detected_witness :
    (main (plainEnv 0) 2 ["render_c", "scene.usda"]).trace.map Call.op =
      (main failingEnv 2 ["render_c", "missing.usda"]).trace.map Call.op ∧
    (main failingEnv 2 ["render_c", "missing.usda"]).exit = none :=
  ⟨(resolution_failure_not_detected (plainEnv 0) failingEnv 2 2 ["render_c", "scene.usda"]
      ["render_c", "missing.usda"] (by decide) (by decide)).1,
   (resolution_failure_not_detected (plainEnv 0) failingEnv 2 2 ["render_c", "scene.usda"]
      ["render_c", "missing.usda"] (by decide) (by decide)).2.2.2.1⟩

/-! ## Arguments as left by the windowing init -/

/-- C10: the count `main` tests and the vector it reads the file name from are
the ones `glutInit` leaves behind.  `main` returns 1 exactly when that count
differs from 2, and otherwise opens, once, element 1 of that vector.  Some
`glutInit` that consumes arguments makes `main` accept a run started with more
than one argument and load a scene; and for every `glutInit` that leaves count
and vector untouched, the test is on the count `main` was started with and the
file opened is element 1 of the vector it was started with. -/
theorem arguments_as_left_by_init (env : Collaborators) (argc : Int) (argv : List String) :
    (argcAfterInit env argc argv = (env.glutInit [] argc argv).1 ∧
      argvAfterInit env argc argv = (env.glutInit [] argc argv).2) ∧
    ((main env argc argv).exit = some 1 ↔ argcAfterInit env argc argv ≠ 2) ∧
    (argcAfterInit env argc argv = 2 → ∃ (stage : Ptr) (s : Int),
      callsOf Op.usd_Stage_Open (main env argc argv).trace =
        [Call.usd_Stage_Open ((argvAfterInit env argc argv).get? 1) 0 stage s]) ∧
    (∃ (env' : Collaborators) (argv' : List String) (name : String) (stage : Ptr) (s : Int),
      2 < argv'.length ∧
      (main env' argv'.length argv').exit = none ∧
      Call.usd_Stage_Open (some name) 0 stage s ∈ (main env' argv'.length argv').trace) ∧
    (env.glutInit [] argc argv = (argc, argv) →
      ((main env argc argv).exit = some 1 ↔ argc ≠ 2) ∧
      (argc = 2 → ∃ (stage : Ptr) (s : Int),
        callsOf Op.usd_Stage_Open (main env argc argv).trace =
          [Call.usd_Stage_Open (argv.get? 1) 0 stage s])) := by
  have hiff : (main env argc argv).exit = some 1 ↔ argcAfterInit env argc argv ≠ 2 := by
    constructor
    · intro h1 h2
      obtain ⟨_, _, _, _, _, _, _, _, _, _, _, _, _, -, -, hexit, -, -⟩ :=
        run_of_eq env argc argv [] h2
      rw [hexit] at h1
      exact Option.noConfusion h1
    · intro hne
      rw [main_of_ne env argc argv hne]
  have hopen : argcAfterInit env argc argv = 2 → ∃ (stage : Ptr) (s : Int),
      callsOf Op.usd_Stage_Open (main env argc argv).trace =
        [Call.usd_Stage_Open ((argvAfterInit env argc argv).get? 1) 0 stage s] := by
    intro h2
    obtain ⟨_, stage, s, _, _, _, _, _, _, _, _, _, _, -, htrace, -, -, -⟩ :=
      run_of_eq env argc argv [] h2
    exact ⟨stage, s, by rw [htrace]; rfl⟩
  refine ⟨⟨rfl, rfl⟩, hiff, hopen, ?_, ?_⟩
  · exact ⟨consumingEnv 0, ["render_c", "-iconic", "scene.usda"], "scene.usda", 11, 0,
      by decide⟩
  · intro hinit
    have hc : argcAfterInit env argc argv = argc := by
      show (env.glutInit [] argc argv).1 = argc
      rw [hinit]
    have hv : argvAfterInit env argc argv = argv := by
      show (env.glutInit [] argc argv).2 = argv
      rw [hinit]
    rw [hc] at hiff hopen
    rw [hv] at hopen
    exact ⟨hiff, hopen⟩

/-- C10 at a concrete run: `glutInit` leaves the arguments of `render_c
scene.usda` untouched, `main` does not return 1 and opens `scene.usda`. -/
theorem arguments_as_left_by_init_witness :
    (main (plainEnv 0) 2 ["render_c", "scene.usda"]).exit ≠ some 1 ∧
    ∃ (stage : Ptr) (s : Int),
      callsOf Op.usd_Stage_Open (main (plainEnv 0) 2 ["render_c", "scene.usda"]).trace =
        [Call.usd_Stage_Open (some "scene.usda") 0 stage s] :=
  ⟨fun h1 => ((arguments_as_left_by_init (plainEnv 0) 2 ["render_c", "scene.usda"]).2.2.2.2
      rfl).1.mp h1 rfl,
   ((arguments_as_left_by_init (plainEnv 0) 2 ["render_c", "scene.usda"]).2.2.2.2 rfl).2 rfl⟩

end UsdRender
